import Mathlib

/-!
Verification of the QR-attendance backend core (qr-backend).

Shallow embedding of the QR controller (`generateQR`, `generateTeacherSelfQR`,
`scanTeacherQR`, `scanQR`), the attendance controller (`markAttendance`) and
the Mongoose `AttendanceSchema`.  Times are Nat milliseconds since the epoch;
JavaScript float arithmetic on time differences and work hours is modelled
with exact rationals (the quantities involved are small enough that binary
doubles are exact or round identically at every boundary used below).
-/

namespace QRBackend

/-- Truthiness of `a || b` on JavaScript strings: the empty string is falsy. -/
def jsOrStr (a b : String) : String := if a.isEmpty then b else a

/-- JavaScript `a || b` where `a` is a possibly-undefined string. -/
def jsOrOptStr (a : Option String) (b : String) : String :=
  match a with
  | none => b
  | some s => jsOrStr s b

/-- JavaScript `a || d` where `a` is a possibly-undefined number: `0` is falsy. -/
def jsOrOptNat (a : Option Nat) (d : Nat) : Nat :=
  match a with
  | none => d
  | some 0 => d
  | some n => n

/-- A teacher directory entry (the fields of the Teacher model the QR
controllers actually read: `_id`, `name`, `institutionCode`). -/
structure Teacher where
  id : String
  name : String
  institutionCode : String
  deriving Repr, DecidableEq

/-- A student directory entry (the fields `markAttendance` reads). -/
structure Student where
  id : String
  name : String
  rollNo : String
  sectionName : String
  deriving Repr, DecidableEq

/-- An attendance record, one field per path of the Mongoose
`AttendanceSchema` (models/Attendance.js).  `recId` stands for the
system-generated `_id`; `className`/`sectionName` render the schema paths
`class`/`section` (Lean keywords).  Optional schema paths are `Option`;
paths with schema defaults hold the default when a handler omits them. -/
structure AttendanceRecord where
  recId : Nat
  studentId : Option String
  teacherId : String
  attendanceType : String
  subject : Option String
  institutionCode : String
  sessionId : String
  status : String
  date : Nat
  scanTime : Nat
  teacherCheckIn : Option Nat
  teacherCheckOut : Option Nat
  workHours : ℚ
  markedBy : String
  remarks : String
  className : Option String
  sectionName : Option String
  period : Nat
  lateMinutes : Int
  rollNumber : Option String
  createdAt : Nat
  deriving Repr, DecidableEq

/-- Unique indexes declared by `AttendanceSchema`: the schema in
models/Attendance.js declares no `unique : true` path and makes no
`schema.index` call at all, so the list is empty. -/
def attendanceSchemaUniqueIndexes : List (List String) := []

/-! ### Token codec

Modelled from the spec: the signing and verification themselves live in the
`jsonwebtoken` dependency, not under src/.  Per spec §4.1 the codec
serializes the claim set plus `issuedAt`, signs it with a process-wide
secret binding every byte, and on decode verifies the signature before the
expiry check, with `Malformed`, `InvalidSignature` and `Expired` as the
distinct failure modes.  The HMAC is idealized as a tag that determines
(secret, signed bytes) exactly, which is the standard perfect-MAC reading
of "any tampering invalidates the signature". -/

/-- The one loosely-typed JWT payload shape both generators emit
(`generateQR` sets the class fields and leaves `type`/`purpose` undefined;
`generateTeacherSelfQR` does the opposite).  `type_` renders the payload
field `type` (a Lean keyword). -/
structure JwtPayload where
  sessionId : String
  teacherId : String
  teacherName : String
  institutionCode : String
  timestamp : Nat
  subject : Option String
  className : Option String
  sectionName : Option String
  period : Option Nat
  type_ : Option String
  purpose : Option String
  deriving Repr, DecidableEq

/-- Length-prefixed byte encoding of a string (code points as bytes). -/
def encodeString (s : String) : List Nat :=
  s.data.length :: s.data.map Char.toNat

/-- Byte encoding of a numeric payload field. -/
def encodeNat (n : Nat) : List Nat := [n]

/-- Byte encoding of an optional string field (presence tag first). -/
def encodeOptString : Option String → List Nat
  | none => [0]
  | some s => 1 :: encodeString s

/-- Byte encoding of an optional numeric field (presence tag first). -/
def encodeOptNat : Option Nat → List Nat
  | none => [0]
  | some n => [1, n]

/-- Read `n` code points back off the byte stream. -/
def decodeChars : Nat → List Nat → Option (List Char × List Nat)
  | 0, l => some ([], l)
  | _ + 1, [] => none
  | n + 1, b :: l =>
    match decodeChars n l with
    | none => none
    | some (cs, r) => some (Char.ofNat b :: cs, r)

/-- Read one length-prefixed string off the byte stream. -/
def decodeStringPart : List Nat → Option (String × List Nat)
  | [] => none
  | n :: l =>
    match decodeChars n l with
    | none => none
    | some (cs, r) => some (String.mk cs, r)

/-- Read one numeric field off the byte stream. -/
def decodeNatPart : List Nat → Option (Nat × List Nat)
  | [] => none
  | n :: l => some (n, l)

/-- Read one optional string field off the byte stream. -/
def decodeOptStringPart : List Nat → Option (Option String × List Nat)
  | 0 :: l => some (none, l)
  | 1 :: l =>
    match decodeStringPart l with
    | none => none
    | some (s, r) => some (some s, r)
  | _ => none

/-- Read one optional numeric field off the byte stream. -/
def decodeOptNatPart : List Nat → Option (Option Nat × List Nat)
  | 0 :: l => some (none, l)
  | 1 :: n :: l => some (some n, l)
  | _ => none

/-- Serialize a payload to its signed byte string. -/
def serializeJwtPayload (p : JwtPayload) : List Nat :=
  encodeString p.sessionId ++ encodeString p.teacherId ++
  encodeString p.teacherName ++ encodeString p.institutionCode ++
  encodeNat p.timestamp ++ encodeOptString p.subject ++
  encodeOptString p.className ++ encodeOptString p.sectionName ++
  encodeOptNat p.period ++ encodeOptString p.type_ ++
  encodeOptString p.purpose

/-- Parse a payload back from its byte string; `none` is a malformed token. -/
def decodeJwtPayload (l : List Nat) : Option JwtPayload :=
  match decodeStringPart l with
  | none => none
  | some (sessionId, l) =>
  match decodeStringPart l with
  | none => none
  | some (teacherId, l) =>
  match decodeStringPart l with
  | none => none
  | some (teacherName, l) =>
  match decodeStringPart l with
  | none => none
  | some (institutionCode, l) =>
  match decodeNatPart l with
  | none => none
  | some (timestamp, l) =>
  match decodeOptStringPart l with
  | none => none
  | some (subject, l) =>
  match decodeOptStringPart l with
  | none => none
  | some (className, l) =>
  match decodeOptStringPart l with
  | none => none
  | some (sectionName, l) =>
  match decodeOptNatPart l with
  | none => none
  | some (period, l) =>
  match decodeOptStringPart l with
  | none => none
  | some (type_, l) =>
  match decodeOptStringPart l with
  | none => none
  | some (purpose, l) =>
  if l.isEmpty then
    some ⟨sessionId, teacherId, teacherName, institutionCode, timestamp,
          subject, className, sectionName, period, type_, purpose⟩
  else none

/-- A signed token: payload bytes, the embedded `exp` claim, signature. -/
structure Token where
  payloadBytes : List Nat
  exp : Nat
  sig : List Nat
  deriving Repr, DecidableEq

/-- Idealized MAC over the signed material (`exp` plus payload bytes). -/
def mac (secret : List Nat) (exp : Nat) (payload : List Nat) : List Nat :=
  secret ++ exp :: payload

/-- Modelled from the spec: `jwt.sign(payload, secret, { expiresIn: ttl })` —
the expiry is `issuedAt + ttl` and the signature binds it with the payload. -/
def signToken (secret : List Nat) (payloadBytes : List Nat) (issuedAt ttl : Nat) : Token :=
  ⟨payloadBytes, issuedAt + ttl, mac secret (issuedAt + ttl) payloadBytes⟩

/-- Token-level failures, spec §4.1 / §7. -/
inductive TokenError where
  | malformed
  | invalidSignature
  | expired
  deriving Repr, DecidableEq

/-- Modelled from the spec: `jwt.verify` — parse the token structure, verify
the signature, and only then check `now` against the signed expiry
(valid while `now - issuedAt ≤ ttl`). -/
def verifyJwt (secret : List Nat) (now : Nat) (t : Token) : Except TokenError JwtPayload :=
  match decodeJwtPayload t.payloadBytes with
  | none => .error .malformed
  | some p =>
    if t.sig ≠ mac secret t.exp t.payloadBytes then .error .invalidSignature
    else if t.exp < now then .error .expired
    else .ok p

/-- Session kinds, spec §3 (a closed enum). -/
inductive SessionKind where
  | class_session
  | teacher_self
  deriving Repr, DecidableEq

/-- Fixed TTL in milliseconds per session kind: `expiresIn: "5m"` in
`generateQR`, `expiresIn: "2m"` in `generateTeacherSelfQR`. -/
def ttlMs : SessionKind → Nat
  | .class_session => 5 * 60 * 1000
  | .teacher_self => 2 * 60 * 1000

/-- The payload `generateQR` signs (qrController): class fields from the
request with the JS `||` defaults, no `type`/`purpose` fields. -/
def generateQRPayload (teacher : Teacher) (sessionId subject className : String)
    (sectionName : Option String) (period : Option Nat)
    (institutionCode : String) (now : Nat) : JwtPayload :=
  { sessionId := sessionId
    teacherId := teacher.id
    teacherName := teacher.name
    institutionCode := institutionCode
    timestamp := now
    subject := some subject
    className := some className
    sectionName := some (sectionName.getD "")
    period := some (jsOrOptNat period 1)
    type_ := none
    purpose := none }

/-- The class-session token `generateQR` returns (signed with a 5-minute
expiry). -/
def generateQRToken (secret : List Nat) (teacher : Teacher)
    (sessionId subject className : String) (sectionName : Option String)
    (period : Option Nat) (institutionCode : String) (now : Nat) : Token :=
  signToken secret
    (serializeJwtPayload
      (generateQRPayload teacher sessionId subject className sectionName period
        institutionCode now))
    now (ttlMs .class_session)

/-- The payload `generateTeacherSelfQR` signs: identity fields only, plus
`type: "teacher_attendance"` and `purpose: "check_in"`. -/
def generateTeacherSelfQRPayload (teacher : Teacher) (sessionId : String)
    (institutionCode : String) (now : Nat) : JwtPayload :=
  { sessionId := sessionId
    teacherId := teacher.id
    teacherName := teacher.name
    institutionCode := institutionCode
    timestamp := now
    subject := none
    className := none
    sectionName := none
    period := none
    type_ := some "teacher_attendance"
    purpose := some "check_in" }

/-- The teacher-self token `generateTeacherSelfQR` returns (signed with a
2-minute expiry). -/
def generateTeacherSelfQRToken (secret : List Nat) (teacher : Teacher)
    (sessionId institutionCode : String) (now : Nat) : Token :=
  signToken secret
    (serializeJwtPayload
      (generateTeacherSelfQRPayload teacher sessionId institutionCode now))
    now (ttlMs .teacher_self)

theorem decodeChars_encode (cs : List Char) (r : List Nat) :
    decodeChars cs.length (cs.map Char.toNat ++ r) = some (cs, r) := by
  induction cs with
  | nil => simp [decodeChars]
  | cons c cs ih => simp [decodeChars, ih, Char.ofNat_toNat]

theorem decodeStringPart_encode (s : String) (r : List Nat) :
    decodeStringPart (encodeString s ++ r) = some (s, r) := by
  cases s with
  | mk data => simp [encodeString, decodeStringPart, decodeChars_encode]

theorem decodeNatPart_encode (n : Nat) (r : List Nat) :
    decodeNatPart (encodeNat n ++ r) = some (n, r) := by
  simp [encodeNat, decodeNatPart]

theorem decodeOptStringPart_encode (s : Option String) (r : List Nat) :
    decodeOptStringPart (encodeOptString s ++ r) = some (s, r) := by
  cases s with
  | none => simp [encodeOptString, decodeOptStringPart]
  | some s => simp [encodeOptString, decodeOptStringPart, decodeStringPart_encode]

theorem decodeOptNatPart_encode (n : Option Nat) (r : List Nat) :
    decodeOptNatPart (encodeOptNat n ++ r) = some (n, r) := by
  cases n with
  | none => simp [encodeOptNat, decodeOptNatPart]
  | some n => simp [encodeOptNat, decodeOptNatPart]

theorem decodeOptStringPart_encode_nil (s : Option String) :
    decodeOptStringPart (encodeOptString s) = some (s, []) := by
  simpa using decodeOptStringPart_encode s []

/-- The payload byte encoding round-trips. -/
theorem decodeJwtPayload_serialize (p : JwtPayload) :
    decodeJwtPayload (serializeJwtPayload p) = some p := by
  simp only [serializeJwtPayload, List.append_assoc]
  simp [decodeJwtPayload, decodeStringPart_encode, decodeNatPart_encode,
    decodeOptStringPart_encode, decodeOptNatPart_encode,
    decodeOptStringPart_encode_nil]

/-! ### Redemption handlers (qrController / attendanceController) -/

/-- JavaScript `parseFloat(x.toFixed(2))` on the non-negative work-hour
values used here: round to the nearest hundredth, halves up. -/
def round2 (q : ℚ) : ℚ := (round (q * 100) : ℚ) / 100

/-- The `findOne` filter of `scanTeacherQR`:
`{ teacherId, date: { $gte: today }, attendanceType: 'teacher' }`. -/
def teacherAttendanceMatch (tid : String) (today : Nat) (r : AttendanceRecord) : Bool :=
  r.teacherId == tid && today ≤ r.date && r.attendanceType == "teacher"

/-- The `findOne` filter of `scanQR` / `markAttendance`:
`{ sessionId, studentId }`. -/
def sessionStudentMatch (sess stud : String) (r : AttendanceRecord) : Bool :=
  r.sessionId == sess && r.studentId == some stud

/-- The check-in record `scanTeacherQR` saves (lines 225-236 of the QR
controller); omitted schema paths take their schema defaults.  The fresh
Mongo `_id` is modelled as the current ledger length. -/
def teacherCheckInRecord (p : JwtPayload) (teacher : Teacher) (userId : Option String)
    (today now recId : Nat) : AttendanceRecord :=
  { recId := recId
    studentId := none
    teacherId := p.teacherId
    attendanceType := "teacher"
    subject := none
    institutionCode := jsOrStr p.institutionCode teacher.institutionCode
    sessionId := p.sessionId
    status := "present"
    date := today
    scanTime := now
    teacherCheckIn := some now
    teacherCheckOut := none
    workHours := 0
    markedBy := jsOrOptStr userId "qr_scanner"
    remarks := "Checked in at " ++ toString now
    className := none
    sectionName := none
    period := 1
    lateMinutes := 0
    rollNumber := none
    createdAt := now }

/-- The in-place mutation the check-out leg of `scanTeacherQR` saves:
`teacherCheckOut`, `scanTime` and `remarks` always; `workHours` (work time
in hours, `toFixed(2)`-rounded) only when `teacherCheckIn` is present. -/
def teacherCheckOutUpdate (r0 : AttendanceRecord) (now : Nat) : AttendanceRecord :=
  let r1 : AttendanceRecord :=
    { r0 with
      teacherCheckOut := some now
      scanTime := now
      remarks := "Checked out at " ++ toString now }
  match r0.teacherCheckIn with
  | none => r1
  | some tin =>
    let wh := round2 (((now : ℚ) - (tin : ℚ)) / (1000 * 60 * 60))
    { r1 with
      workHours := wh
      remarks := r1.remarks ++ " | Worked: " ++ toString wh ++ " hours" }

/-- The response shape of `scanTeacherQR` (the fields the claims consult). -/
structure TeacherScanResult where
  httpStatus : Nat
  success : Bool
  message : String
  action : Option String
  workHoursOut : Option ℚ
  deriving Repr, DecidableEq

/-- The `scanTeacherQR` handler (qrController lines 156-301): verify the
token, require `type === "teacher_attendance"`, look the teacher up, then
drive the per-(teacher, day) state machine: no record yet → create a
check-in; record without `teacherCheckOut` → save the check-out mutation
(the response carries `success: false` with HTTP 200 here, as in the
source); otherwise reject with "Attendance already completed for today". -/
def scanTeacherQR (secret : List Nat) (teachers : List Teacher)
    (db : List AttendanceRecord) (today now : Nat) (userId : Option String)
    (qrToken : Option Token) : List AttendanceRecord × TeacherScanResult :=
  match qrToken with
  | none => (db, ⟨400, false, "QR token is required", none, none⟩)
  | some tok =>
    match verifyJwt secret now tok with
    | .error _ => (db, ⟨401, false, "Invalid or expired QR code", none, none⟩)
    | .ok p =>
      if p.type_ ≠ some "teacher_attendance" then
        (db, ⟨400, false, "This QR is not for teacher attendance", none, none⟩)
      else
        match teachers.find? (fun t => t.id == p.teacherId) with
        | none => (db, ⟨404, false, "Teacher not found", none, none⟩)
        | some teacher =>
          match db.find? (teacherAttendanceMatch p.teacherId today) with
          | none =>
            let r := teacherCheckInRecord p teacher userId today now db.length
            (db ++ [r],
              ⟨200, true, "✅ Teacher check-in successful!", some "check_in", none⟩)
          | some r0 =>
            if r0.teacherCheckOut.isNone then
              let r1 := teacherCheckOutUpdate r0 now
              (db.map fun r => if r.recId == r0.recId then r1 else r,
                ⟨200, false, "✅ Teacher check-out successful!", some "check_out",
                  some r1.workHours⟩)
            else
              (db, ⟨400, false, "Attendance already completed for today", none, none⟩)

/-- The response shape of `scanQR` (the fields the claims consult). -/
structure ScanResult where
  httpStatus : Nat
  success : Bool
  message : String
  deriving Repr, DecidableEq

/-- The record `scanQR` saves (qrController lines 661-672): `status:
'present'` unconditionally, no `lateMinutes` (schema default 0), no `date`
(schema default: start of today), `attendanceType` defaulting to
`'student'`; the handler's `markedAt` field has no schema path and is
dropped by Mongoose. -/
def scanQRRecord (p : JwtPayload) (studentId : String) (today now recId : Nat) :
    AttendanceRecord :=
  { recId := recId
    studentId := some studentId
    teacherId := p.teacherId
    attendanceType := "student"
    subject := p.subject
    institutionCode := p.institutionCode
    sessionId := p.sessionId
    status := "present"
    date := today
    scanTime := now
    teacherCheckIn := none
    teacherCheckOut := none
    workHours := 0
    markedBy := "system"
    remarks := ""
    className := p.className
    sectionName := p.sectionName
    period := p.period.getD 1
    lateMinutes := 0
    rollNumber := none
    createdAt := now }

/-- The `scanQR` handler (qrController lines 624-711): verify the token
(`JsonWebTokenError` → "Invalid QR code", `TokenExpiredError` → "QR code
has expired"), re-check `Date.now() > timestamp + 5min`, reject a second
redemption of the same `(sessionId, studentId)` without writing, otherwise
append a new `present` record. -/
def scanQR (secret : List Nat) (db : List AttendanceRecord) (today now : Nat)
    (studentId : String) (qrToken : Option Token) :
    List AttendanceRecord × ScanResult :=
  match qrToken with
  | none => (db, ⟨400, false, "QR token is required"⟩)
  | some tok =>
    match verifyJwt secret now tok with
    | .error .malformed => (db, ⟨400, false, "Invalid QR code"⟩)
    | .error .invalidSignature => (db, ⟨400, false, "Invalid QR code"⟩)
    | .error .expired => (db, ⟨400, false, "QR code has expired"⟩)
    | .ok p =>
      if p.timestamp + 5 * 60 * 1000 < now then
        (db, ⟨400, false, "QR code has expired"⟩)
      else if (db.find? (sessionStudentMatch p.sessionId studentId)).isSome then
        (db, ⟨400, false, "Attendance already marked for this session"⟩)
      else
        (db ++ [scanQRRecord p studentId today now db.length],
          ⟨200, true, "Attendance marked successfully"⟩)

/-- The response shape of `markAttendance` (the fields the claims consult). -/
structure MarkResult where
  httpStatus : Nat
  success : Bool
  message : String
  statusOut : Option String
  lateMinutesOut : Option Int
  deriving Repr, DecidableEq

/-- The record `markAttendance` saves (attendanceController lines 109-124):
lateness from `timeDifference > 1` minute (strict), `lateMinutes =
Math.floor(timeDifference)` when late, `date: new Date()` (not midnight). -/
def markAttendanceRecord (p : JwtPayload) (studentId : String) (student : Student)
    (now recId : Nat) : AttendanceRecord :=
  let timeDifference : ℚ := ((now : ℚ) - (p.timestamp : ℚ)) / 1000 / 60
  let isLate := 1 < timeDifference
  let lateMinutes : Int := if isLate then ⌊timeDifference⌋ else 0
  { recId := recId
    studentId := some studentId
    teacherId := p.teacherId
    attendanceType := "student"
    subject := p.subject
    institutionCode := p.institutionCode
    sessionId := p.sessionId
    status := if isLate then "late" else "present"
    date := now
    scanTime := now
    teacherCheckIn := none
    teacherCheckOut := none
    workHours := 0
    markedBy := "system"
    remarks :=
      if isLate then "Late by " ++ toString lateMinutes ++ " minutes" else "On time"
    className := p.className
    sectionName := some (jsOrOptStr p.sectionName student.sectionName)
    period := jsOrOptNat p.period 1
    lateMinutes := lateMinutes
    rollNumber := some student.rollNo
    createdAt := now }

/-- The `markAttendance` handler (attendanceController lines 37-152): verify
the token (one 401 message for every `jwt.verify` failure), reject when
`timeDifference > 5` minutes, reject a second redemption of the same
`(studentId, sessionId)` without writing, look up student and teacher, then
append the record with the lateness policy of `markAttendanceRecord`. -/
def markAttendance (secret : List Nat) (students : List Student)
    (teachers : List Teacher) (db : List AttendanceRecord) (now : Nat)
    (studentId : String) (qrToken : Option Token) :
    List AttendanceRecord × MarkResult :=
  match qrToken with
  | none => (db, ⟨400, false, "QR token is required", none, none⟩)
  | some tok =>
    match verifyJwt secret now tok with
    | .error _ =>
      (db, ⟨401, false,
        "QR code expired or invalid. Please ask teacher for a new one.", none, none⟩)
    | .ok p =>
      let timeDifference : ℚ := ((now : ℚ) - (p.timestamp : ℚ)) / 1000 / 60
      if 5 < timeDifference then
        (db, ⟨401, false,
          "QR code has expired. Please ask teacher for a new one.", none, none⟩)
      else if (db.find? (sessionStudentMatch p.sessionId studentId)).isSome then
        (db, ⟨400, false, "Attendance already marked for this class", none, none⟩)
      else
        match students.find? (fun s => s.id == studentId) with
        | none => (db, ⟨404, false, "Student not found", none, none⟩)
        | some student =>
          match teachers.find? (fun t => t.id == p.teacherId) with
          | none => (db, ⟨404, false, "Teacher not found", none, none⟩)
          | some _ =>
            let r := markAttendanceRecord p studentId student now db.length
            (db ++ [r],
              ⟨200, true,
                (if r.status = "late" then
                  "Attendance marked (Late by " ++ toString r.lateMinutes ++ " minutes)"
                else "Attendance marked successfully"),
                some r.status, some r.lateMinutes⟩)

/-- Number of ledger records for one `(sessionId, studentId)` key. -/
def countKey (db : List AttendanceRecord) (sess stud : String) : Nat :=
  (db.filter (sessionStudentMatch sess stud)).length

/-- The duplicate check of `scanQR`: a record for the key already exists. -/
def hasKey (db : List AttendanceRecord) (sess stud : String) : Bool :=
  (db.find? (sessionStudentMatch sess stud)).isSome

/-! ### Interleaving model of two concurrent `scanQR` redemptions

`scanQR` awaits `Attendance.findOne` and then `attendance.save()` as two
separate storage operations (spec §5: ledger reads and writes are the
suspension points).  Two concurrent redemptions of the same token by the
same student therefore interleave a check step and an insert step per
request, against a store whose schema declares no unique index
(`attendanceSchemaUniqueIndexes`). -/

/-- Where one in-flight redemption request stands. -/
inductive ReqPhase where
  | pending
  | proceed
  | duplicate
  | finished
  deriving Repr, DecidableEq

/-- Ledger plus the phases of two in-flight requests A and B. -/
structure ConcState where
  ledger : List AttendanceRecord
  phaseA : ReqPhase
  phaseB : ReqPhase
  deriving Repr, DecidableEq

/-- One storage-layer step of either request: the `findOne` duplicate check
(moving to `proceed` or `duplicate`), the `save` of a fresh record, or the
no-write rejection. -/
inductive ConcStep (p : JwtPayload) (stud : String) (today nA nB : Nat) :
    ConcState → ConcState → Prop where
  | checkA (l : List AttendanceRecord) (pb : ReqPhase) :
      ConcStep p stud today nA nB ⟨l, .pending, pb⟩
        ⟨l, if hasKey l p.sessionId stud then .duplicate else .proceed, pb⟩
  | insertA (l : List AttendanceRecord) (pb : ReqPhase) :
      ConcStep p stud today nA nB ⟨l, .proceed, pb⟩
        ⟨l ++ [scanQRRecord p stud today nA l.length], .finished, pb⟩
  | rejectA (l : List AttendanceRecord) (pb : ReqPhase) :
      ConcStep p stud today nA nB ⟨l, .duplicate, pb⟩ ⟨l, .finished, pb⟩
  | checkB (l : List AttendanceRecord) (pa : ReqPhase) :
      ConcStep p stud today nA nB ⟨l, pa, .pending⟩
        ⟨l, pa, if hasKey l p.sessionId stud then .duplicate else .proceed⟩
  | insertB (l : List AttendanceRecord) (pa : ReqPhase) :
      ConcStep p stud today nA nB ⟨l, pa, .proceed⟩
        ⟨l ++ [scanQRRecord p stud today nB l.length], pa, .finished⟩
  | rejectB (l : List AttendanceRecord) (pa : ReqPhase) :
      ConcStep p stud today nA nB ⟨l, pa, .duplicate⟩ ⟨l, pa, .finished⟩

/-! ### Concrete inputs for witness instances -/

/-- A concrete signing secret. -/
def wSecret : List Nat := [9]

/-- A concrete teacher directory entry. -/
def wTeacher : Teacher := ⟨"t1", "Ann", "INST"⟩

/-- A concrete student directory entry. -/
def wStudent : Student := ⟨"s1", "Bob", "R1", "A"⟩

/-- A concrete class-session claim (session `cs0`, issued at time 0). -/
def cPayload : JwtPayload :=
  generateQRPayload wTeacher "cs0" "Math" "10A" none none "INST" 0

/-- The genuine token carrying `cPayload`. -/
def wToken : Token :=
  generateQRToken wSecret wTeacher "cs0" "Math" "10A" none none "INST" 0

/-- The same token with its signature bytes mutated away. -/
def wTampered : Token := ⟨wToken.payloadBytes, wToken.exp, []⟩

/-- A structurally valid token whose signature does not verify. -/
def wBadSigToken : Token := ⟨serializeJwtPayload cPayload, 300000, []⟩

/-- A second concrete class-session claim (session `cs2`). -/
def cPayload2 : JwtPayload :=
  generateQRPayload wTeacher "cs2" "Math" "10A" none none "INST" 0

/-- The genuine token carrying `cPayload2`. -/
def wToken2 : Token :=
  generateQRToken wSecret wTeacher "cs2" "Math" "10A" none none "INST" 0

/-- Teacher self-attendance claims and tokens at three issue times. -/
def wTP1 : JwtPayload := generateTeacherSelfQRPayload wTeacher "ts1" "INST" 0

/-- Token for `wTP1`. -/
def wTT1 : Token := generateTeacherSelfQRToken wSecret wTeacher "ts1" "INST" 0

/-- A teacher self claim issued later the same day. -/
def wTP2 : JwtPayload := generateTeacherSelfQRPayload wTeacher "ts2" "INST" 3500000

/-- Token for `wTP2`. -/
def wTT2 : Token := generateTeacherSelfQRToken wSecret wTeacher "ts2" "INST" 3500000

/-- A teacher self claim issued just before 09:30. -/
def wTP3 : JwtPayload := generateTeacherSelfQRPayload wTeacher "ts3" "INST" 34150000

/-- Token for `wTP3`. -/
def wTT3 : Token := generateTeacherSelfQRToken wSecret wTeacher "ts3" "INST" 34150000

/-- A check-in record saved at 09:00:00 (32400000 ms). -/
def wCheckInRec : AttendanceRecord :=
  teacherCheckInRecord wTP1 wTeacher none 0 32400000 0

/-! ### Helper lemmas -/

theorem mac_inj {secret : List Nat} {e1 e2 : Nat} {p1 p2 : List Nat}
    (h : mac secret e1 p1 = mac secret e2 p2) : e1 = e2 ∧ p1 = p2 := by
  have h' : e1 :: p1 = e2 :: p2 := List.append_cancel_left h
  exact ⟨List.head_eq_of_cons_eq h', List.tail_eq_of_cons_eq h'⟩

/-- A genuine token decodes back to its payload while within the TTL. -/
theorem verifyJwt_signToken_ok {secret : List Nat} {p : JwtPayload} {iat ttl now : Nat}
    (hnow : now ≤ iat + ttl) :
    verifyJwt secret now (signToken secret (serializeJwtPayload p) iat ttl) = .ok p := by
  simp [verifyJwt, signToken, decodeJwtPayload_serialize, Nat.not_lt.mpr hnow]

/-- A genuine token past its TTL fails with `Expired`. -/
theorem verifyJwt_signToken_expired {secret : List Nat} {p : JwtPayload} {iat ttl now : Nat}
    (hold : iat + ttl < now) :
    verifyJwt secret now (signToken secret (serializeJwtPayload p) iat ttl) =
      .error .expired := by
  simp [verifyJwt, signToken, decodeJwtPayload_serialize, hold]

theorem find?_append_singleton {l : List AttendanceRecord}
    {q : AttendanceRecord → Bool} (h : l.find? q = none) (r : AttendanceRecord) :
    (l ++ [r]).find? q = if q r then some r else none := by
  rw [List.find?_append, h]
  cases hqr : q r <;> simp [List.find?, hqr]

/-! ### Claim theorems -/

/-- C8: token issuance uses a fixed TTL determined solely by the session
kind — every class-session token gets a 5-minute window and every
teacher-self token a 2-minute window measured from `issuedAt`, for all
values of every other input. -/
theorem ttl_fixed_by_kind (secret : List Nat) (teacher : Teacher)
    (sessionId subject className : String) (sectionName : Option String)
    (period : Option Nat) (institutionCode sid2 inst2 : String) (now now2 : Nat) :
    (generateQRToken secret teacher sessionId subject className sectionName period
        institutionCode now).exp = now + ttlMs .class_session ∧
    (generateTeacherSelfQRToken secret teacher sid2 inst2 now2).exp =
      now2 + ttlMs .teacher_self ∧
    ttlMs .class_session = 5 * 60 * 1000 ∧ ttlMs .teacher_self = 2 * 60 * 1000 := by
  simp [generateQRToken, generateTeacherSelfQRToken, signToken, ttlMs]

/-- C4: while `now ≤ issuedAt + ttl`, decoding a freshly issued
class-session token returns the original claim with every field intact;
and a token obtained by mutating bytes of one region of a genuine token —
its signed material (payload bytes or expiry) with the signature kept, or
its signature with the signed material kept, which covers every single-byte
mutation — fails with `Malformed` or `InvalidSignature` at every decode
time, never returning a claim. -/
theorem token_roundtrip_and_tamper_detect (secret : List Nat) (teacher : Teacher)
    (sessionId subject className : String) (sectionName : Option String)
    (period : Option Nat) (institutionCode : String) (iat now : Nat)
    (t t' : Token)
    (ht : t = generateQRToken secret teacher sessionId subject className sectionName
      period institutionCode iat)
    (hnow : now ≤ iat + ttlMs .class_session)
    (hmut :
      (t'.sig = t.sig ∧ (t'.payloadBytes ≠ t.payloadBytes ∨ t'.exp ≠ t.exp)) ∨
      (t'.sig ≠ t.sig ∧ t'.payloadBytes = t.payloadBytes ∧ t'.exp = t.exp)) :
    verifyJwt secret now t =
      .ok (generateQRPayload teacher sessionId subject className sectionName period
        institutionCode iat) ∧
    ∀ m, verifyJwt secret m t' = .error .malformed ∨
      verifyJwt secret m t' = .error .invalidSignature := by
  subst ht
  refine ⟨verifyJwt_signToken_ok hnow, fun m => ?_⟩
  rcases hmut with ⟨hsig, hne⟩ | ⟨hsig, hpb, hexp⟩
  · cases hdec : decodeJwtPayload t'.payloadBytes with
    | none => exact Or.inl (by simp [verifyJwt, hdec])
    | some q =>
      refine Or.inr ?_
      have hsig' : t'.sig ≠ mac secret t'.exp t'.payloadBytes := by
        intro hEq
        rw [hsig] at hEq
        simp only [generateQRToken, signToken] at hEq
        obtain ⟨he, hp⟩ := mac_inj hEq
        rcases hne with hne | hne
        · exact hne (by simp [generateQRToken, signToken, hp.symm])
        · exact hne (by simp [generateQRToken, signToken, he.symm])
      simp [verifyJwt, hdec, hsig']
  · refine Or.inr ?_
    have hdec : decodeJwtPayload t'.payloadBytes =
        some (generateQRPayload teacher sessionId subject className sectionName period
          institutionCode iat) := by
      rw [hpb]
      simp [generateQRToken, signToken, decodeJwtPayload_serialize]
    have hsig' : t'.sig ≠ mac secret t'.exp t'.payloadBytes := by
      rw [hpb, hexp]
      simpa [generateQRToken, signToken] using hsig
    simp [verifyJwt, hdec, hsig']

/-- C5: the three token-level failures are distinct outcomes — a
well-signed token past its TTL fails with `Expired`, which differs from
`Malformed` and from `InvalidSignature` — and signature verification comes
before the expiry check: a token whose signature does not verify is
`InvalidSignature` at every decode time, expired or not. -/
theorem token_error_taxonomy (secret : List Nat) (p q : JwtPayload)
    (iat ttl now now2 : Nat) (t : Token)
    (hold : iat + ttl < now)
    (hq : decodeJwtPayload t.payloadBytes = some q)
    (hsig : t.sig ≠ mac secret t.exp t.payloadBytes) :
    verifyJwt secret now (signToken secret (serializeJwtPayload p) iat ttl) =
      .error .expired ∧
    verifyJwt secret now2 t = .error .invalidSignature ∧
    (Except.error .expired : Except TokenError JwtPayload) ≠ .error .malformed ∧
    (Except.error .expired : Except TokenError JwtPayload) ≠ .error .invalidSignature ∧
    (Except.error .malformed : Except TokenError JwtPayload) ≠ .error .invalidSignature := by
  refine ⟨verifyJwt_signToken_expired hold, ?_, by simp, by simp, by simp⟩
  simp [verifyJwt, hq, hsig]

theorem scanTeacherQR_checkin_eq {secret : List Nat} {teachers : List Teacher}
    {db : List AttendanceRecord} {today now : Nat} {uid : Option String}
    {tok : Token} {p : JwtPayload} {T : Teacher}
    (hv : verifyJwt secret now tok = .ok p)
    (hty : p.type_ = some "teacher_attendance")
    (hT : teachers.find? (fun t => t.id == p.teacherId) = some T)
    (hfind : db.find? (teacherAttendanceMatch p.teacherId today) = none) :
    scanTeacherQR secret teachers db today now uid (some tok) =
      (db ++ [teacherCheckInRecord p T uid today now db.length],
        ⟨200, true, "✅ Teacher check-in successful!", some "check_in", none⟩) := by
  simp [scanTeacherQR, hv, hty, hT, hfind]

theorem scanTeacherQR_checkout_eq {secret : List Nat} {teachers : List Teacher}
    {db : List AttendanceRecord} {today now : Nat} {uid : Option String}
    {tok : Token} {p : JwtPayload} {T : Teacher} {r0 : AttendanceRecord}
    (hv : verifyJwt secret now tok = .ok p)
    (hty : p.type_ = some "teacher_attendance")
    (hT : teachers.find? (fun t => t.id == p.teacherId) = some T)
    (hfind : db.find? (teacherAttendanceMatch p.teacherId today) = some r0)
    (hco : r0.teacherCheckOut = none) :
    scanTeacherQR secret teachers db today now uid (some tok) =
      (db.map fun r => if r.recId == r0.recId then teacherCheckOutUpdate r0 now else r,
        ⟨200, false, "✅ Teacher check-out successful!", some "check_out",
          some (teacherCheckOutUpdate r0 now).workHours⟩) := by
  simp [scanTeacherQR, hv, hty, hT, hfind, hco]

theorem scanTeacherQR_completed_eq {secret : List Nat} {teachers : List Teacher}
    {db : List AttendanceRecord} {today now : Nat} {uid : Option String}
    {tok : Token} {p : JwtPayload} {T : Teacher} {r0 : AttendanceRecord} {c : Nat}
    (hv : verifyJwt secret now tok = .ok p)
    (hty : p.type_ = some "teacher_attendance")
    (hT : teachers.find? (fun t => t.id == p.teacherId) = some T)
    (hfind : db.find? (teacherAttendanceMatch p.teacherId today) = some r0)
    (hco : r0.teacherCheckOut = some c) :
    scanTeacherQR secret teachers db today now uid (some tok) =
      (db, ⟨400, false, "Attendance already completed for today", none, none⟩) := by
  simp [scanTeacherQR, hv, hty, hT, hfind, hco]

theorem teacherCheckOutUpdate_checkOut (r0 : AttendanceRecord) (now : Nat) :
    (teacherCheckOutUpdate r0 now).teacherCheckOut = some now := by
  cases h : r0.teacherCheckIn <;> simp [teacherCheckOutUpdate, h]

/-- C1: the teacher self-attendance state machine per (teacher, day).  With
no record for the day, a scan creates exactly one record with `checkIn`
set and status `present` and answers `check_in`; the next scan saves
`checkOut` and `workHours` onto that same record and answers `check_out`;
and after that, every scan of the day with a valid teacher token for this
teacher fails with "Attendance already completed for today" and writes
nothing. -/
theorem teacher_state_machine (secret : List Nat) (teachers : List Teacher)
    (db : List AttendanceRecord) (today n1 n2 : Nat) (uid : Option String)
    (t1 t2 : Token) (p1 p2 : JwtPayload) (tid : String) (T : Teacher)
    (hv1 : verifyJwt secret n1 t1 = .ok p1)
    (hty1 : p1.type_ = some "teacher_attendance") (hid1 : p1.teacherId = tid)
    (hv2 : verifyJwt secret n2 t2 = .ok p2)
    (hty2 : p2.type_ = some "teacher_attendance") (hid2 : p2.teacherId = tid)
    (hT : teachers.find? (fun t => t.id == tid) = some T)
    (h0 : db.find? (teacherAttendanceMatch tid today) = none)
    (hIds : ∀ r ∈ db, r.recId ≠ db.length) :
    scanTeacherQR secret teachers db today n1 uid (some t1) =
      (db ++ [teacherCheckInRecord p1 T uid today n1 db.length],
        ⟨200, true, "✅ Teacher check-in successful!", some "check_in", none⟩) ∧
    (teacherCheckInRecord p1 T uid today n1 db.length).teacherCheckIn = some n1 ∧
    (teacherCheckInRecord p1 T uid today n1 db.length).status = "present" ∧
    scanTeacherQR secret teachers
        (db ++ [teacherCheckInRecord p1 T uid today n1 db.length]) today n2 uid
        (some t2) =
      (db ++ [teacherCheckOutUpdate (teacherCheckInRecord p1 T uid today n1 db.length) n2],
        ⟨200, false, "✅ Teacher check-out successful!", some "check_out",
          some (teacherCheckOutUpdate (teacherCheckInRecord p1 T uid today n1 db.length)
            n2).workHours⟩) ∧
    (teacherCheckOutUpdate (teacherCheckInRecord p1 T uid today n1 db.length)
      n2).teacherCheckOut = some n2 ∧
    (teacherCheckOutUpdate (teacherCheckInRecord p1 T uid today n1 db.length)
      n2).workHours = round2 (((n2 : ℚ) - (n1 : ℚ)) / (1000 * 60 * 60)) ∧
    ∀ n3 t3 p3, verifyJwt secret n3 t3 = .ok p3 →
      p3.type_ = some "teacher_attendance" → p3.teacherId = tid →
      scanTeacherQR secret teachers
          (db ++ [teacherCheckOutUpdate (teacherCheckInRecord p1 T uid today n1 db.length) n2])
          today n3 uid (some t3) =
        (db ++ [teacherCheckOutUpdate (teacherCheckInRecord p1 T uid today n1 db.length) n2],
          ⟨400, false, "Attendance already completed for today", none, none⟩) := by
  have hT1 : teachers.find? (fun t => t.id == p1.teacherId) = some T := by
    rw [hid1]; exact hT
  have h01 : db.find? (teacherAttendanceMatch p1.teacherId today) = none := by
    rw [hid1]; exact h0
  have hmatch1 :
      teacherAttendanceMatch tid today
        (teacherCheckInRecord p1 T uid today n1 db.length) = true := by
    simp [teacherAttendanceMatch, teacherCheckInRecord, hid1]
  have hfind2 :
      (db ++ [teacherCheckInRecord p1 T uid today n1 db.length]).find?
        (teacherAttendanceMatch p2.teacherId today) =
        some (teacherCheckInRecord p1 T uid today n1 db.length) := by
    rw [hid2, find?_append_singleton h0, hmatch1]
    simp
  have hco1 :
      (teacherCheckInRecord p1 T uid today n1 db.length).teacherCheckOut = none := by
    simp [teacherCheckInRecord]
  have hT2 : teachers.find? (fun t => t.id == p2.teacherId) = some T := by
    rw [hid2]; exact hT
  have hmapeq :
      (db ++ [teacherCheckInRecord p1 T uid today n1 db.length]).map
        (fun r =>
          if r.recId == (teacherCheckInRecord p1 T uid today n1 db.length).recId then
            teacherCheckOutUpdate (teacherCheckInRecord p1 T uid today n1 db.length) n2
          else r) =
      db ++ [teacherCheckOutUpdate (teacherCheckInRecord p1 T uid today n1 db.length) n2] := by
    rw [List.map_append]
    have hdb : db.map
        (fun r =>
          if r.recId == (teacherCheckInRecord p1 T uid today n1 db.length).recId then
            teacherCheckOutUpdate (teacherCheckInRecord p1 T uid today n1 db.length) n2
          else r) = db.map id := by
      refine List.map_congr_left fun r hr => ?_
      have : r.recId ≠ (teacherCheckInRecord p1 T uid today n1 db.length).recId := by
        simpa [teacherCheckInRecord] using hIds r hr
      simp [this]
    rw [hdb, List.map_id]
    simp [teacherCheckInRecord]
  have hwh :
      (teacherCheckOutUpdate (teacherCheckInRecord p1 T uid today n1 db.length)
        n2).workHours = round2 (((n2 : ℚ) - (n1 : ℚ)) / (1000 * 60 * 60)) := by
    simp [teacherCheckOutUpdate, teacherCheckInRecord]
  refine ⟨scanTeacherQR_checkin_eq hv1 hty1 hT1 h01, by simp [teacherCheckInRecord],
    by simp [teacherCheckInRecord], ?_, teacherCheckOutUpdate_checkOut _ _, hwh,
    ?_⟩
  · rw [scanTeacherQR_checkout_eq hv2 hty2 hT2 hfind2 hco1, hmapeq]
  · intro n3 t3 p3 hv3 hty3 hid3
    have hT3 : teachers.find? (fun t => t.id == p3.teacherId) = some T := by
      rw [hid3]; exact hT
    have hmatch2 :
        teacherAttendanceMatch tid today
          (teacherCheckOutUpdate (teacherCheckInRecord p1 T uid today n1 db.length) n2) =
          true := by
      simp [teacherAttendanceMatch, teacherCheckOutUpdate, teacherCheckInRecord, hid1]
    have hfind3 :
        (db ++ [teacherCheckOutUpdate (teacherCheckInRecord p1 T uid today n1 db.length)
            n2]).find? (teacherAttendanceMatch p3.teacherId today) =
          some (teacherCheckOutUpdate (teacherCheckInRecord p1 T uid today n1 db.length)
            n2) := by
      rw [hid3, find?_append_singleton h0, hmatch2]
      simp
    exact scanTeacherQR_completed_eq hv3 hty3 hT3 hfind3
      (teacherCheckOutUpdate_checkOut _ _)

/-- C7: on a teacher check-out following a same-day check-in at `checkIn`,
the stored `workHours` is `(checkOut - checkIn)` in hours rounded to two
decimals; in particular a 09:00:00 check-in with a 09:30:00 check-out
(30 minutes = 1800000 ms later) yields `workHours = 0.50`. -/
theorem work_hours_arithmetic (secret : List Nat) (teachers : List Teacher)
    (db : List AttendanceRecord) (today now tin : Nat) (uid : Option String)
    (tok : Token) (p : JwtPayload) (T : Teacher) (r0 : AttendanceRecord)
    (hv : verifyJwt secret now tok = .ok p)
    (hty : p.type_ = some "teacher_attendance")
    (hT : teachers.find? (fun t => t.id == p.teacherId) = some T)
    (hfind : db.find? (teacherAttendanceMatch p.teacherId today) = some r0)
    (hco : r0.teacherCheckOut = none)
    (hci : r0.teacherCheckIn = some tin) :
    (scanTeacherQR secret teachers db today now uid (some tok)).1 =
      db.map (fun r => if r.recId == r0.recId then teacherCheckOutUpdate r0 now else r) ∧
    (teacherCheckOutUpdate r0 now).workHours =
      round2 (((now : ℚ) - (tin : ℚ)) / (1000 * 60 * 60)) ∧
    (now = tin + 1800000 → (teacherCheckOutUpdate r0 now).workHours = 1 / 2) := by
  have hwh : (teacherCheckOutUpdate r0 now).workHours =
      round2 (((now : ℚ) - (tin : ℚ)) / (1000 * 60 * 60)) := by
    simp [teacherCheckOutUpdate, hci]
  refine ⟨by rw [scanTeacherQR_checkout_eq hv hty hT hfind hco], hwh, fun hnow => ?_⟩
  rw [hwh, hnow]
  have : ((tin + 1800000 : Nat) : ℚ) - (tin : ℚ) = 1800000 := by push_cast; ring
  rw [this]
  norm_num [round2]

/-- C9: on every successful teacher check-out, the mutation (`checkOut`,
`workHours`, `scanTime`, `remarks`) is committed to the ledger and the
response reports HTTP 200 with the check-out success message, yet carries
`success: false` — the success flag contradicts the committed state
change. -/
theorem checkout_success_flag_false (secret : List Nat) (teachers : List Teacher)
    (db : List AttendanceRecord) (today now : Nat) (uid : Option String)
    (tok : Token) (p : JwtPayload) (T : Teacher) (r0 : AttendanceRecord)
    (hv : verifyJwt secret now tok = .ok p)
    (hty : p.type_ = some "teacher_attendance")
    (hT : teachers.find? (fun t => t.id == p.teacherId) = some T)
    (hfind : db.find? (teacherAttendanceMatch p.teacherId today) = some r0)
    (hco : r0.teacherCheckOut = none) :
    scanTeacherQR secret teachers db today now uid (some tok) =
      (db.map fun r => if r.recId == r0.recId then teacherCheckOutUpdate r0 now else r,
        ⟨200, false, "✅ Teacher check-out successful!", some "check_out",
          some (teacherCheckOutUpdate r0 now).workHours⟩) ∧
    (teacherCheckOutUpdate r0 now).teacherCheckOut = some now ∧
    (scanTeacherQR secret teachers db today now uid (some tok)).2.httpStatus = 200 ∧
    (scanTeacherQR secret teachers db today now uid (some tok)).2.message =
      "✅ Teacher check-out successful!" ∧
    (scanTeacherQR secret teachers db today now uid (some tok)).2.success = false := by
  have h := @scanTeacherQR_checkout_eq secret teachers db today now uid tok p T r0 hv hty hT hfind hco
  exact ⟨h, teacherCheckOutUpdate_checkOut _ _, by rw [h], by rw [h], by rw [h]⟩

theorem filter_eq_nil_of_find?_none {l : List AttendanceRecord}
    {q : AttendanceRecord → Bool} (h : l.find? q = none) : l.filter q = [] := by
  rw [List.filter_eq_nil_iff]
  simpa [List.find?_eq_none] using h

theorem scanQR_insert_eq {secret : List Nat} {db : List AttendanceRecord}
    {today now : Nat} {stud : String} {tok : Token} {p : JwtPayload}
    (hv : verifyJwt secret now tok = .ok p)
    (hfresh : ¬ (p.timestamp + 5 * 60 * 1000 < now))
    (hnodup : db.find? (sessionStudentMatch p.sessionId stud) = none) :
    scanQR secret db today now stud (some tok) =
      (db ++ [scanQRRecord p stud today now db.length],
        ⟨200, true, "Attendance marked successfully"⟩) := by
  simp [scanQR, hv, hfresh, hnodup]

theorem scanQR_dup_eq {secret : List Nat} {db : List AttendanceRecord}
    {today now : Nat} {stud : String} {tok : Token} {p : JwtPayload}
    (hv : verifyJwt secret now tok = .ok p)
    (hfresh : ¬ (p.timestamp + 5 * 60 * 1000 < now))
    (hdup : (db.find? (sessionStudentMatch p.sessionId stud)).isSome = true) :
    scanQR secret db today now stud (some tok) =
      (db, ⟨400, false, "Attendance already marked for this session"⟩) := by
  simp [scanQR, hv, hfresh, hdup]

theorem sessionStudentMatch_scanQRRecord (p : JwtPayload) (stud : String)
    (today now recId : Nat) :
    sessionStudentMatch p.sessionId stud (scanQRRecord p stud today now recId) = true := by
  simp [sessionStudentMatch, scanQRRecord]

/-- C2: redeeming the same class-session token twice in sequence for one
`(sessionId, studentId)` key persists exactly one record; the second
redemption — through `scanQR` as well as through `markAttendance` — leaves
the ledger untouched and answers the "already marked" outcome. -/
theorem class_session_idempotency (secret : List Nat) (db dbB : List AttendanceRecord)
    (today today2 n1 n2 m1 m2 : Nat) (stud studB : String) (tok tokB : Token)
    (p pB : JwtPayload) (students : List Student) (teachers : List Teacher)
    (student : Student) (TB : Teacher)
    (hv1 : verifyJwt secret n1 tok = .ok p)
    (hf1 : ¬ (p.timestamp + 5 * 60 * 1000 < n1))
    (hv2 : verifyJwt secret n2 tok = .ok p)
    (hf2 : ¬ (p.timestamp + 5 * 60 * 1000 < n2))
    (hnodup : db.find? (sessionStudentMatch p.sessionId stud) = none)
    (hvB1 : verifyJwt secret m1 tokB = .ok pB)
    (htdB1 : ¬ (5 < ((m1 : ℚ) - (pB.timestamp : ℚ)) / 1000 / 60))
    (hvB2 : verifyJwt secret m2 tokB = .ok pB)
    (htdB2 : ¬ (5 < ((m2 : ℚ) - (pB.timestamp : ℚ)) / 1000 / 60))
    (hnodupB : dbB.find? (sessionStudentMatch pB.sessionId studB) = none)
    (hstu : students.find? (fun s => s.id == studB) = some student)
    (htea : teachers.find? (fun t => t.id == pB.teacherId) = some TB) :
    scanQR secret db today n1 stud (some tok) =
      (db ++ [scanQRRecord p stud today n1 db.length],
        ⟨200, true, "Attendance marked successfully"⟩) ∧
    countKey (db ++ [scanQRRecord p stud today n1 db.length]) p.sessionId stud = 1 ∧
    scanQR secret (db ++ [scanQRRecord p stud today n1 db.length]) today2 n2 stud
        (some tok) =
      (db ++ [scanQRRecord p stud today n1 db.length],
        ⟨400, false, "Attendance already marked for this session"⟩) ∧
    markAttendance secret students teachers dbB m1 studB (some tokB) =
      (dbB ++ [markAttendanceRecord pB studB student m1 dbB.length],
        ⟨200, true,
          (if (markAttendanceRecord pB studB student m1 dbB.length).status = "late" then
            "Attendance marked (Late by " ++
              toString (markAttendanceRecord pB studB student m1 dbB.length).lateMinutes ++
              " minutes)"
          else "Attendance marked successfully"),
          some (markAttendanceRecord pB studB student m1 dbB.length).status,
          some (markAttendanceRecord pB studB student m1 dbB.length).lateMinutes⟩) ∧
    countKey (dbB ++ [markAttendanceRecord pB studB student m1 dbB.length])
      pB.sessionId studB = 1 ∧
    markAttendance secret students teachers
        (dbB ++ [markAttendanceRecord pB studB student m1 dbB.length]) m2 studB
        (some tokB) =
      (dbB ++ [markAttendanceRecord pB studB student m1 dbB.length],
        ⟨400, false, "Attendance already marked for this class", none, none⟩) := by
  have hcount : countKey (db ++ [scanQRRecord p stud today n1 db.length])
      p.sessionId stud = 1 := by
    simp [countKey, List.filter_append, filter_eq_nil_of_find?_none hnodup,
      sessionStudentMatch_scanQRRecord]
  have hfind2 : ((db ++ [scanQRRecord p stud today n1 db.length]).find?
      (sessionStudentMatch p.sessionId stud)).isSome = true := by
    rw [find?_append_singleton hnodup, sessionStudentMatch_scanQRRecord]
    simp
  have hmatchB : sessionStudentMatch pB.sessionId studB
      (markAttendanceRecord pB studB student m1 dbB.length) = true := by
    simp [sessionStudentMatch, markAttendanceRecord]
  have hcountB : countKey (dbB ++ [markAttendanceRecord pB studB student m1 dbB.length])
      pB.sessionId studB = 1 := by
    simp [countKey, List.filter_append, filter_eq_nil_of_find?_none hnodupB, hmatchB]
  have hfindB2 : (dbB ++ [markAttendanceRecord pB studB student m1 dbB.length]).find?
      (sessionStudentMatch pB.sessionId studB) =
      some (markAttendanceRecord pB studB student m1 dbB.length) := by
    rw [find?_append_singleton hnodupB, hmatchB]
    simp
  refine ⟨scanQR_insert_eq hv1 hf1 hnodup, hcount,
    scanQR_dup_eq hv2 hf2 hfind2, ?_, hcountB, ?_⟩
  · simp [markAttendance, hvB1, htdB1, hnodupB, hstu, htea]
  · simp [markAttendance, hvB2, htdB2, hfindB2]

/-- C3: within the TTL, a `markAttendance` redemption at elapsed time `t`
is `late` exactly when `t` exceeds one minute strictly, with `lateMinutes`
the floor of `t` in minutes when late and `0` otherwise; redeeming at
exactly 60.000 s gives `present` with `lateMinutes = 0`, at 60.001 s gives
`late` with `lateMinutes = 1`. -/
theorem lateness_boundary (secret : List Nat) (students : List Student)
    (teachers : List Teacher) (db : List AttendanceRecord) (now : Nat)
    (stud : String) (tok : Token) (p : JwtPayload) (student : Student) (T : Teacher)
    (hv : verifyJwt secret now tok = .ok p)
    (htd : ¬ (5 < ((now : ℚ) - (p.timestamp : ℚ)) / 1000 / 60))
    (hnodup : db.find? (sessionStudentMatch p.sessionId stud) = none)
    (hstu : students.find? (fun s => s.id == stud) = some student)
    (htea : teachers.find? (fun t => t.id == p.teacherId) = some T) :
    (markAttendance secret students teachers db now stud (some tok)).1 =
      db ++ [markAttendanceRecord p stud student now db.length] ∧
    ((markAttendanceRecord p stud student now db.length).status = "late" ↔
      1 < ((now : ℚ) - (p.timestamp : ℚ)) / 1000 / 60) ∧
    (markAttendanceRecord p stud student now db.length).lateMinutes =
      (if 1 < ((now : ℚ) - (p.timestamp : ℚ)) / 1000 / 60 then
        ⌊((now : ℚ) - (p.timestamp : ℚ)) / 1000 / 60⌋
      else 0) ∧
    (now = p.timestamp + 60000 →
      (markAttendanceRecord p stud student now db.length).status = "present" ∧
      (markAttendanceRecord p stud student now db.length).lateMinutes = 0) ∧
    (now = p.timestamp + 60001 →
      (markAttendanceRecord p stud student now db.length).status = "late" ∧
      (markAttendanceRecord p stud student now db.length).lateMinutes = 1) := by
  refine ⟨by simp [markAttendance, hv, htd, hnodup, hstu, htea], ?_, ?_, ?_, ?_⟩
  · by_cases h : 1 < ((now : ℚ) - (p.timestamp : ℚ)) / 1000 / 60 <;>
      simp [markAttendanceRecord, h]
  · by_cases h : 1 < ((now : ℚ) - (p.timestamp : ℚ)) / 1000 / 60 <;>
      simp [markAttendanceRecord, h]
  · intro hnow
    subst hnow
    have ht : ((p.timestamp + 60000 : Nat) : ℚ) - (p.timestamp : ℚ) = 60000 := by
      push_cast; ring
    constructor <;> · simp only [markAttendanceRecord, ht]; norm_num
  · intro hnow
    subst hnow
    have ht : ((p.timestamp + 60001 : Nat) : ℚ) - (p.timestamp : ℚ) = 60001 := by
      push_cast; ring
    have hlt : (1 : ℚ) < 60001 / 1000 / 60 := by norm_num
    have hfl : ⌊(60001 : ℚ) / 1000 / 60⌋ = 1 := by norm_num [Int.floor_eq_iff]
    constructor <;> · simp only [markAttendanceRecord, ht]; norm_num [hfl]

/-- C10: every redemption `scanQR` accepts (valid un-expired token, fresh
`(sessionId, studentId)` key) creates a record with status `present` and
the `lateMinutes` schema default `0`, for every elapsed time within the
TTL — this route variant never produces `late`. -/
theorem scanQR_no_lateness (secret : List Nat) (db : List AttendanceRecord)
    (today now : Nat) (stud : String) (tok : Token) (p : JwtPayload)
    (hv : verifyJwt secret now tok = .ok p)
    (hfresh : ¬ (p.timestamp + 5 * 60 * 1000 < now))
    (hnodup : db.find? (sessionStudentMatch p.sessionId stud) = none) :
    scanQR secret db today now stud (some tok) =
      (db ++ [scanQRRecord p stud today now db.length],
        ⟨200, true, "Attendance marked successfully"⟩) ∧
    (scanQRRecord p stud today now db.length).status = "present" ∧
    (scanQRRecord p stud today now db.length).lateMinutes = 0 := by
  exact ⟨scanQR_insert_eq hv hfresh hnodup, by simp [scanQRRecord], by simp [scanQRRecord]⟩

/-- Two concurrent redemptions of the same claim by the same student can
both pass the duplicate check before either writes, reaching a ledger
with two records for the key. -/
theorem twoRecordsReachable :
    Relation.ReflTransGen (ConcStep cPayload "stu1" 0 45000 46000)
      ⟨[], .pending, .pending⟩
      ⟨[scanQRRecord cPayload "stu1" 0 45000 0,
        scanQRRecord cPayload "stu1" 0 46000 1], .finished, .finished⟩ := by
  have h1 : ConcStep cPayload "stu1" 0 45000 46000 ⟨[], .pending, .pending⟩
      ⟨[], .proceed, .pending⟩ := ConcStep.checkA [] .pending
  have h2 : ConcStep cPayload "stu1" 0 45000 46000 ⟨[], .proceed, .pending⟩
      ⟨[], .proceed, .proceed⟩ := ConcStep.checkB [] .proceed
  have h3 : ConcStep cPayload "stu1" 0 45000 46000 ⟨[], .proceed, .proceed⟩
      ⟨[scanQRRecord cPayload "stu1" 0 45000 0], .finished, .proceed⟩ :=
    ConcStep.insertA [] .proceed
  have h4 : ConcStep cPayload "stu1" 0 45000 46000
      ⟨[scanQRRecord cPayload "stu1" 0 45000 0], .finished, .proceed⟩
      ⟨[scanQRRecord cPayload "stu1" 0 45000 0,
        scanQRRecord cPayload "stu1" 0 46000 1], .finished, .finished⟩ :=
    ConcStep.insertB [scanQRRecord cPayload "stu1" 0 45000 0] .finished
  exact Relation.ReflTransGen.head h1 (Relation.ReflTransGen.head h2
    (Relation.ReflTransGen.head h3 (Relation.ReflTransGen.single h4)))

/-- C6 counterexample: the Attendance schema declares no unique index on
`(sessionId, studentId)` (it declares none at all), and the concurrent
interleaving of two check-then-write redemptions reaches a ledger state
holding two records for one `(sessionId, studentId)` key — so the claimed
storage-layer at-most-one invariant fails. -/
theorem storage_unique_index_counterexample :
    ["sessionId", "studentId"] ∉ attendanceSchemaUniqueIndexes ∧
    ∃ s : ConcState,
      Relation.ReflTransGen (ConcStep cPayload "stu1" 0 45000 46000)
        ⟨[], .pending, .pending⟩ s ∧
      1 < countKey s.ledger cPayload.sessionId "stu1" := by
  refine ⟨by simp [attendanceSchemaUniqueIndexes], _, twoRecordsReachable, ?_⟩
  decide

/-- C6 amended: the schema declares no unique index; the
`(sessionId, studentId)` key is enforced only by `scanQR`'s
application-level find-then-insert check, which does make a sequential
duplicate submission a pure no-op, but which admits reachable ledger
states with two records for one key when two redemptions interleave. -/
theorem storage_key_application_level (secret : List Nat)
    (db : List AttendanceRecord) (today now : Nat) (stud : String) (tok : Token)
    (p : JwtPayload)
    (hv : verifyJwt secret now tok = .ok p)
    (hfresh : ¬ (p.timestamp + 5 * 60 * 1000 < now))
    (hdup : (db.find? (sessionStudentMatch p.sessionId stud)).isSome = true) :
    attendanceSchemaUniqueIndexes = [] ∧
    scanQR secret db today now stud (some tok) =
      (db, ⟨400, false, "Attendance already marked for this session"⟩) ∧
    ∃ s : ConcState,
      Relation.ReflTransGen (ConcStep cPayload "stu1" 0 45000 46000)
        ⟨[], .pending, .pending⟩ s ∧
      1 < countKey s.ledger cPayload.sessionId "stu1" :=
  ⟨rfl, scanQR_dup_eq hv hfresh hdup, _, twoRecordsReachable, by decide⟩

/-! ### Witness instances -/

/-- Witness for the C1 state machine at concrete inputs. -/
theorem teacher_state_machine_witness :
    (scanTeacherQR wSecret [wTeacher] [] 0 1000 none (some wTT1)).2.action =
      some "check_in" := by
  have h := teacher_state_machine wSecret [wTeacher] [] 0 1000 3600000 none wTT1 wTT2
    wTP1 wTP2 "t1" wTeacher rfl rfl rfl rfl rfl rfl rfl rfl (by simp)
  rw [h.1]

/-- Witness for the C2 idempotency theorem at concrete inputs. -/
theorem class_session_idempotency_witness :
    countKey [scanQRRecord cPayload "stu1" 0 45000 0] cPayload.sessionId "stu1" = 1 ∧
    (scanQR wSecret [scanQRRecord cPayload "stu1" 0 45000 0] 0 50000 "stu1"
      (some wToken)).2.message = "Attendance already marked for this session" ∧
    (markAttendance wSecret [wStudent] [wTeacher]
      [markAttendanceRecord cPayload2 "s1" wStudent 45000 0] 50000 "s1"
      (some wToken2)).2.message = "Attendance already marked for this class" := by
  have h := class_session_idempotency wSecret [] [] 0 0 45000 50000 45000 50000
    "stu1" "s1" wToken wToken2 cPayload cPayload2 [wStudent] [wTeacher] wStudent
    wTeacher rfl (by decide) rfl (by decide) rfl rfl
    (by norm_num [cPayload2, generateQRPayload]) rfl
    (by norm_num [cPayload2, generateQRPayload]) rfl rfl rfl
  exact ⟨h.2.1, congrArg (fun z => z.2.message) h.2.2.1,
    congrArg (fun z => z.2.message) h.2.2.2.2.2⟩

/-- Witness for the C3 lateness boundary: 60.001 s is late by one minute,
60.000 s is on time. -/
theorem lateness_boundary_witness :
    ((markAttendanceRecord cPayload2 "s1" wStudent 60001 0).status = "late" ∧
      (markAttendanceRecord cPayload2 "s1" wStudent 60001 0).lateMinutes = 1) ∧
    ((markAttendanceRecord cPayload2 "s1" wStudent 60000 0).status = "present" ∧
      (markAttendanceRecord cPayload2 "s1" wStudent 60000 0).lateMinutes = 0) := by
  have h1 := lateness_boundary wSecret [wStudent] [wTeacher] [] 60001 "s1" wToken2
    cPayload2 wStudent wTeacher rfl (by norm_num [cPayload2, generateQRPayload])
    rfl rfl rfl
  have h2 := lateness_boundary wSecret [wStudent] [wTeacher] [] 60000 "s1" wToken2
    cPayload2 wStudent wTeacher rfl (by norm_num [cPayload2, generateQRPayload])
    rfl rfl rfl
  exact ⟨h1.2.2.2.2 rfl, h2.2.2.2.1 rfl⟩

/-- Witness for the C4 round-trip and tamper-detection theorem. -/
theorem token_roundtrip_and_tamper_detect_witness :
    verifyJwt wSecret 300000 wToken = .ok cPayload ∧
    (verifyJwt wSecret 0 wTampered = .error .malformed ∨
      verifyJwt wSecret 0 wTampered = .error .invalidSignature) := by
  have h := token_roundtrip_and_tamper_detect wSecret wTeacher "cs0" "Math" "10A"
    none none "INST" 0 300000 wToken wTampered rfl (by decide)
    (Or.inr ⟨by decide, rfl, rfl⟩)
  exact ⟨h.1, h.2 0⟩

/-- Witness for the C5 error-taxonomy theorem. -/
theorem token_error_taxonomy_witness :
    verifyJwt wSecret 300001 (signToken wSecret (serializeJwtPayload cPayload) 0 300000) =
      .error .expired ∧
    verifyJwt wSecret 400000 wBadSigToken = .error .invalidSignature := by
  have h := token_error_taxonomy wSecret cPayload cPayload 0 300000 300001 400000
    wBadSigToken (by decide) rfl (by decide)
  exact ⟨h.1, h.2.1⟩

/-- Witness for the C6 amended theorem at concrete inputs. -/
theorem storage_key_application_level_witness :
    attendanceSchemaUniqueIndexes = [] ∧
    (scanQR wSecret [scanQRRecord cPayload "stu1" 0 1000 0] 0 2000 "stu1"
      (some wToken)).2.message = "Attendance already marked for this session" := by
  have h := storage_key_application_level wSecret
    [scanQRRecord cPayload "stu1" 0 1000 0] 0 2000 "stu1" wToken cPayload rfl
    (by decide) rfl
  exact ⟨h.1, congrArg (fun z => z.2.message) h.2.1⟩

/-- Witness for the C7 work-hours theorem: 09:00:00 to 09:30:00 gives 0.50. -/
theorem work_hours_arithmetic_witness :
    (teacherCheckOutUpdate wCheckInRec 34200000).workHours = 1 / 2 := by
  have h := work_hours_arithmetic wSecret [wTeacher] [wCheckInRec] 0 34200000
    32400000 none wTT3 wTP3 wTeacher wCheckInRec rfl rfl rfl rfl rfl rfl
  exact h.2.2 rfl

/-- Witness for the C9 check-out response theorem. -/
theorem checkout_success_flag_false_witness :
    (scanTeacherQR wSecret [wTeacher] [wCheckInRec] 0 34200000 none
      (some wTT3)).2.success = false ∧
    (scanTeacherQR wSecret [wTeacher] [wCheckInRec] 0 34200000 none
      (some wTT3)).2.httpStatus = 200 := by
  have h := checkout_success_flag_false wSecret [wTeacher] [wCheckInRec] 0 34200000
    none wTT3 wTP3 wTeacher wCheckInRec rfl rfl rfl rfl rfl
  exact ⟨h.2.2.2.2, h.2.2.1⟩

/-- Witness for the C10 theorem: a redemption 299 s after issuance (just
inside the TTL) is still recorded as `present` with `lateMinutes = 0`. -/
theorem scanQR_no_lateness_witness :
    (scanQR wSecret [] 0 299000 "stu1" (some wToken)).2.httpStatus = 200 ∧
    (scanQRRecord cPayload "stu1" 0 299000 0).status = "present" ∧
    (scanQRRecord cPayload "stu1" 0 299000 0).lateMinutes = 0 := by
  have h := scanQR_no_lateness wSecret [] 0 299000 "stu1" wToken cPayload rfl
    (by decide) rfl
  exact ⟨congrArg (fun z => z.2.httpStatus) h.1, h.2.1, h.2.2⟩

end QRBackend
